import Mathlib

/-!
Verification of the beads Agent Mail client (`beads_mcp/mail.py` and
`beads_mcp/mail_tools.py`) against its specification.

The module is shallowly embedded: environment reads become an explicit
`Env` record, HTTP attempts are driven by a `transport` oracle mapping the
index of each issued request to its outcome, and the observable effects
(requests issued, sleeps performed, logical `_call_agent_mail` invocations)
are threaded through a `MailState`.
-/

namespace BeadsMail

/-- JSON-like values exchanged with the Agent Mail server: the Python
dict/list/scalar values handled by `mail.py`. -/
inductive Json where
  | null
  | bool (b : Bool)
  | num (n : Int)
  | str (s : String)
  | arr (items : List Json)
  | obj (fields : List (String × Json))
deriving Repr, Inhabited

/-- `d.get(key)` on a Python dict: `none` when the key is missing or the
value is not a dict at all (callers that tolerate non-dicts use this;
callers that would raise use `Json.pyGet`). -/
def Json.get : Json → String → Option Json
  | .obj fields, key => fields.lookup key
  | _, _ => none

/-- `d.get(key, default)` where the receiver is known to be a dict. -/
def Json.getD (j : Json) (key : String) (dflt : Json) : Json :=
  (j.get key).getD dflt

/-- `d[key]`-style access used where the key is always present; yields
`null` when missing. -/
def Json.getN (j : Json) (key : String) : Json :=
  (j.get key).getD .null

/-- Python truthiness of a JSON value. -/
def Json.truthy : Json → Bool
  | .null => false
  | .bool b => b
  | .num n => n != 0
  | .str s => s != ""
  | .arr items => !items.isEmpty
  | .obj fields => !fields.isEmpty

mutual

/-- Python `repr` of a JSON value (string escaping inside `repr` is not
modelled; the strings handled here contain no quotes or backslashes). -/
def pyRepr : Json → String
  | .null => "None"
  | .bool true => "True"
  | .bool false => "False"
  | .num n => toString n
  | .str s => "\x27" ++ s ++ "\x27"
  | .arr items => "[" ++ String.intercalate ", " (pyReprList items) ++ "]"
  | .obj fields => "\x7b" ++ String.intercalate ", " (pyReprFields fields) ++ "\x7d"

/-- `repr` of each element of a Python list. -/
def pyReprList : List Json → List String
  | [] => []
  | x :: xs => pyRepr x :: pyReprList xs

/-- `repr` of each binding of a Python dict. -/
def pyReprFields : List (String × Json) → List String
  | [] => []
  | (k, v) :: fs => ("\x27" ++ k ++ "\x27: " ++ pyRepr v) :: pyReprFields fs

end

/-- Python `str` of a JSON value. -/
def pyStr : Json → String
  | .str s => s
  | j => pyRepr j

/-- Python truthiness of an optional string (an `os.environ.get` result or
an optional argument): `false` for `None` and for the empty string. -/
def strTruthy : Option String → Bool
  | some s => s != ""
  | none => false

/-- Python `a or b` for an optional string `a` with default `b`. -/
def pyOrStr (a : Option String) (b : String) : String :=
  match a with
  | some s => if s = "" then b else s
  | none => b

/-- `os.path.basename` for POSIX paths: the component after the last
slash. -/
def basename (p : String) : String :=
  (p.splitOn "/").getLastD ""

/-- POSIX absolute-path test (`p` starts with a slash). -/
def isAbsolutePath (p : String) : Bool :=
  match p.data with
  | c :: _ => c == '/'
  | [] => false

/-- `os.path.abspath` relative to a working directory `cwd`. Path
normalization (collapsing `.` and `..`) is not modelled; the module relies
only on the result being rooted. -/
def abspath (cwd p : String) : String :=
  if isAbsolutePath p then p else cwd ++ "/" ++ p

/-- `urllib.parse.urljoin` restricted to the inputs this module produces:
every endpoint starts with `/`, so the result is the scheme-and-authority
part of the base URL followed by the endpoint; a scheme-less base yields
the endpoint alone, as urljoin does for absolute-path references. -/
def urljoin (base endpoint : String) : String :=
  match base.splitOn "://" with
  | [scheme, rest] => scheme ++ "://" ++ ((rest.splitOn "/").headD "") ++ endpoint
  | _ => endpoint

/-- The normalized error codes of the `MailError` taxonomy. -/
inductive ErrorCode where
  | NOT_CONFIGURED
  | NOT_FOUND
  | CONFLICT
  | INVALID_ARGUMENT
  | UNAVAILABLE
  | TIMEOUT
  | INTERNAL_ERROR
deriving Repr, DecidableEq

/-- The string value of an error code, as stored in `MailError.code`. -/
def ErrorCode.name : ErrorCode → String
  | .NOT_CONFIGURED => "NOT_CONFIGURED"
  | .NOT_FOUND => "NOT_FOUND"
  | .CONFLICT => "CONFLICT"
  | .INVALID_ARGUMENT => "INVALID_ARGUMENT"
  | .UNAVAILABLE => "UNAVAILABLE"
  | .TIMEOUT => "TIMEOUT"
  | .INTERNAL_ERROR => "INTERNAL_ERROR"

/-- The `MailError` exception: a normalized code, a message (a JSON value,
since `error_data.get("detail", ...)` can supply a non-string), and a data
mapping. -/
structure MailError where
  code : ErrorCode
  message : Json
  data : Json
deriving Repr

/-- A Python exception escaping an operation: either a `MailError` (the
only exception the module raises and catches deliberately) or an untyped
exception such as a `TypeError`/`AttributeError` from reshaping a
malformed response (never caught by this module). -/
inductive PyExc where
  | mail (e : MailError)
  | other (msg : String)
deriving Repr

/-- `x.get(key, default)` where `x` may not be a dict: Python raises an
`AttributeError` on non-dict receivers. -/
def Json.pyGet (x : Json) (key : String) (dflt : Json) : Except PyExc Json :=
  match x with
  | .obj fields => .ok ((fields.lookup key).getD dflt)
  | _ => .error (.other ("AttributeError: no attribute get while reading " ++ key))

/-- The process environment and OS context read by `mail.py`:
`BEADS_AGENT_MAIL_URL`, `BEADS_AGENT_NAME`, `BEADS_AGENT_MAIL_TOKEN`,
`BEADS_PROJECT_ID`, the OS user (`getpass.getuser()`, `none` when that
lookup raises), and the current working directory. -/
structure Env where
  mailUrl : Option String
  agentName : Option String
  mailToken : Option String
  projectId : Option String
  osUser : Option String
  cwd : String
deriving Repr, DecidableEq

/-- The `NOT_CONFIGURED` error raised when `BEADS_AGENT_MAIL_URL` is
missing or empty. -/
def urlNotConfiguredError : MailError :=
  ⟨.NOT_CONFIGURED,
   .str ("Agent Mail not configured. Set BEADS_AGENT_MAIL_URL environment variable.\n"
     ++ "Example: export BEADS_AGENT_MAIL_URL=http://127.0.0.1:8765\n"
     ++ "See docs/AGENT_MAIL_QUICKSTART.md for setup instructions."),
   .obj []⟩

/-- The `NOT_CONFIGURED` error raised when `BEADS_AGENT_NAME` is missing
and the OS user lookup fails. -/
def nameNotConfiguredError : MailError :=
  ⟨.NOT_CONFIGURED,
   .str ("Agent Mail not configured. Set BEADS_AGENT_NAME environment variable.\n"
     ++ "Example: export BEADS_AGENT_NAME=my-agent"),
   .obj []⟩

/-- `_get_config`: resolve `(base_url, agent_name, token)` from the
environment. Fails with `NOT_CONFIGURED` when the base URL is unset or
empty; derives `"<user>-<basename(cwd)>"` when the agent name is unset,
failing with `NOT_CONFIGURED` when the OS user lookup raises. -/
def getConfig (env : Env) : Except MailError (String × String × Option String) :=
  if strTruthy env.mailUrl = false then .error urlNotConfiguredError
  else
    let baseUrl := env.mailUrl.getD ""
    if strTruthy env.agentName then .ok (baseUrl, env.agentName.getD "", env.mailToken)
    else
      match env.osUser with
      | some user => .ok (baseUrl, user ++ "-" ++ basename env.cwd, env.mailToken)
      | none => .error nameNotConfiguredError

/-- `_get_project_key`: the explicit `BEADS_PROJECT_ID` when truthy
(returned verbatim), else the discovered workspace root (the external
`_find_beads_db_in_tree` collaborator, passed in as `workspace`) made
absolute, else the current working directory made absolute. -/
def getProjectKey (env : Env) (workspace : Option String) : String :=
  if strTruthy env.projectId then env.projectId.getD ""
  else if strTruthy workspace then abspath env.cwd (workspace.getD "")
  else abspath env.cwd env.cwd

/-- The project key as each facade operation resolves it: the explicit
`project_key` argument when truthy (`project_key or auto_project_key`),
else `_get_project_key()`. -/
def resolveProjectKey (override : Option String) (env : Env) (workspace : Option String) : String :=
  pyOrStr override (getProjectKey env workspace)

/-- `AGENT_MAIL_TIMEOUT`: per-attempt timeout, in milliseconds (5.0
seconds in the source; durations are modelled in milliseconds so they are
exactly representable). -/
def AGENT_MAIL_TIMEOUT_MS : Nat := 5000

/-- `AGENT_MAIL_RETRIES`: number of retries after the first attempt. -/
def AGENT_MAIL_RETRIES : Nat := 2

/-- The backoff slept after a failed retryable attempt:
`0.5 * (2 ** attempt)` seconds, i.e. `500 * 2 ^ attempt` milliseconds. -/
def backoffDelayMs (attempt : Nat) : Nat := 500 * 2 ^ attempt

/-- The outcome of one `requests.request` attempt as `_call_agent_mail`
observes it: an HTTP response carrying a status code, a parsed JSON body
when the body is non-empty and valid JSON (invalid bodies are not
modelled), and the raw text; or a timeout; or a connection error; or any
other unexpected exception. -/
inductive HttpOutcome where
  | status (code : Nat) (content : Option Json) (text : String)
  | timeout
  | connectionError (msg : String)
  | otherException (msg : String)
deriving Repr

/-- One HTTP request as issued on the wire (one per attempt). -/
structure RequestInfo where
  method : String
  url : String
  headers : List (String × String)
  body : Option Json
  params : Option Json
deriving Repr

/-- The observable effects of the module, threaded through every
operation: each HTTP request issued (one entry per attempt, in order),
each `time.sleep` duration, and one `(method, endpoint)` entry per logical
`_call_agent_mail` invocation (which may span several attempts). -/
structure MailState where
  issued : List RequestInfo := []
  slept : List Nat := []
  calls : List (String × String) := []
deriving Repr

/-- Headers computed once per `_call_agent_mail` invocation: bearer auth
when a token is configured, plus an `Idempotency-Key` (a fresh UUID per
logical call, supplied by the model's caller as `uuid`) for POST/PUT
requests carrying a truthy JSON body. -/
def buildHeaders (token : Option String) (method : String) (jsonData : Option Json)
    (uuid : String) : List (String × String) :=
  let auth := if strTruthy token then [("Authorization", "Bearer " ++ token.getD "")] else []
  if (method = "POST" ∨ method = "PUT") ∧ (jsonData.getD .null).truthy = true then
    auth ++ [("Idempotency-Key", uuid)]
  else auth

/-- `x.isObj`: whether a JSON value is a dict. -/
def Json.isObj : Json → Bool
  | .obj _ => true
  | _ => false

/-- The Python type name of a JSON value, for `AttributeError` texts. -/
def pyTypeName : Json → String
  | .null => "NoneType"
  | .bool _ => "bool"
  | .num _ => "int"
  | .str _ => "str"
  | .arr _ => "list"
  | .obj _ => "dict"

/-- `error_data.get("detail", default)` as evaluated for 409/other-4xx
error messages: the lookup when `error_data` is a dict, and an
`AttributeError` otherwise — lists, strings, numbers, booleans and null
have no `.get`, and in the source that exception escapes to the generic
`except Exception` clause of the retry loop. -/
def detailOr (errorData : Json) (dflt : Json) : Except String Json :=
  match errorData with
  | .obj fields => .ok ((fields.lookup "detail").getD dflt)
  | j => .error ("\x27" ++ pyTypeName j ++ "\x27 object has no attribute \x27get\x27")

/-- The retryable `UNAVAILABLE` error recorded for an HTTP 5xx response. -/
def serverError (code attempt : Nat) : MailError :=
  ⟨.UNAVAILABLE, .str ("Agent Mail server error: HTTP " ++ toString code),
   .obj [("status", .num code), ("attempt", .num (attempt + 1))]⟩

/-- The retryable `TIMEOUT` error recorded for a request timeout. -/
def timeoutError (attempt : Nat) : MailError :=
  ⟨.TIMEOUT, .str "Agent Mail request timeout after 5.0s",
   .obj [("attempt", .num (attempt + 1))]⟩

/-- The retryable `UNAVAILABLE` error recorded for a connection failure. -/
def connectError (baseUrl msg : String) (attempt : Nat) : MailError :=
  ⟨.UNAVAILABLE, .str ("Cannot connect to Agent Mail server at " ++ baseUrl),
   .obj [("error", .str msg), ("attempt", .num (attempt + 1))]⟩

/-- The retryable `INTERNAL_ERROR` recorded for any other exception. -/
def unexpectedError (msg : String) (attempt : Nat) : MailError :=
  ⟨.INTERNAL_ERROR, .str ("Unexpected error calling Agent Mail: " ++ msg),
   .obj [("error", .str msg), ("attempt", .num (attempt + 1))]⟩

/-- The result of classifying one attempt: a final result (success or a
non-retryable 4xx `MailError` raised out of the loop), or a retryable
error recorded as `last_error`. -/
inductive AttemptResult where
  | final (r : Except MailError Json)
  | retryable (e : MailError)

/-- The handling of a 4xx response, with `error_data` the parsed body (or
`{"detail": text}` when the body does not parse): a 404 raises
`NOT_FOUND` directly (its message never calls `.get`); a 409 or another
4xx first evaluates `error_data.get("detail", ...)` for the message —
when `error_data` is not a dict that raises `AttributeError`, which the
generic `except Exception` clause records as a retryable
`INTERNAL_ERROR` instead of raising the 4xx `MailError`. -/
def clientError (endpoint : String) (code attempt : Nat) (content : Option Json)
    (text : String) : AttemptResult :=
  let errorData := content.getD (.obj [("detail", .str text)])
  if code = 404 then
    .final (.error ⟨.NOT_FOUND, .str ("Resource not found: " ++ endpoint), errorData⟩)
  else if code = 409 then
    match detailOr errorData (.str "Conflict") with
    | .ok detail => .final (.error ⟨.CONFLICT, detail, errorData⟩)
    | .error msg => .retryable (unexpectedError msg attempt)
  else
    match detailOr errorData (.str ("HTTP " ++ toString code)) with
    | .ok detail => .final (.error ⟨.INVALID_ARGUMENT, detail, errorData⟩)
    | .error msg => .retryable (unexpectedError msg attempt)

/-- The per-attempt classification in the body of `_call_agent_mail`'s
retry loop: status < 400 is success (empty body parses as `{}`); 4xx is
handled by `clientError` (usually a non-retryable `MailError`, but a
retryable `INTERNAL_ERROR` when message construction raises); 5xx,
timeouts, connection errors and unexpected exceptions are recorded as
retryable. -/
def classifyAttempt (endpoint baseUrl : String) (attempt : Nat) :
    HttpOutcome → AttemptResult
  | .status code content text =>
    if code < 400 then .final (.ok (content.getD (.obj [])))
    else if code < 500 then clientError endpoint code attempt content text
    else .retryable (serverError code attempt)
  | .timeout => .retryable (timeoutError attempt)
  | .connectionError msg => .retryable (connectError baseUrl msg attempt)
  | .otherException msg => .retryable (unexpectedError msg attempt)

/-- The retry loop of `_call_agent_mail`: issue the request (appending it
to `issued`; its outcome is `transport` applied to its index), classify,
and either finish, or sleep `backoffDelayMs attempt` and retry while
`remaining` attempts are left (initially `AGENT_MAIL_RETRIES`). -/
def runAttempts (transport : Nat → HttpOutcome) (req : RequestInfo)
    (endpoint baseUrl : String) :
    Nat → Nat → MailState → Except MailError Json × MailState
  | remaining, attempt, st =>
    let st1 := { st with issued := st.issued ++ [req] }
    match classifyAttempt endpoint baseUrl attempt (transport st.issued.length) with
    | .final r => (r, st1)
    | .retryable e =>
      match remaining with
      | 0 => (.error e, st1)
      | r + 1 =>
        runAttempts transport req endpoint baseUrl r (attempt + 1)
          { st1 with slept := st1.slept ++ [backoffDelayMs attempt] }

/-- `_call_agent_mail`: resolve configuration, build the target URL and
the headers (computed once, so retries reuse the same idempotency key),
then run the retry loop. Records one `calls` entry per invocation. -/
def callAgentMail (env : Env) (transport : Nat → HttpOutcome) (uuid : String)
    (method endpoint : String) (jsonData : Option Json) (params : Option Json)
    (st : MailState) : Except MailError Json × MailState :=
  match getConfig env with
  | .error e => (.error e, st)
  | .ok (baseUrl, _, token) =>
    let url := urljoin baseUrl endpoint
    let headers := buildHeaders token method jsonData uuid
    let req : RequestInfo := ⟨method, url, headers, jsonData, params⟩
    runAttempts transport req endpoint baseUrl AGENT_MAIL_RETRIES 0
      { st with calls := st.calls ++ [(method, endpoint)] }

/-- `result if isinstance(result, list) else []`. -/
def asList : Json → List Json
  | .arr items => items
  | _ => []

/-- Python `x[0]`: first element of a list; raises on non-lists and empty
lists. -/
def pyIndex0 : Json → Except PyExc Json
  | .arr (x :: _) => .ok x
  | .arr [] => .error (.other "IndexError: list index out of range")
  | _ => .error (.other "TypeError: value is not subscriptable")

/-- Python `len(x)` for lists, dicts and strings. -/
def pyLen : Json → Except PyExc Json
  | .arr items => .ok (.num items.length)
  | .obj fields => .ok (.num fields.length)
  | .str s => .ok (.num s.length)
  | _ => .error (.other "TypeError: value has no len")

/-- Python `x[:100]` on the preview source: slices strings and lists,
raises `TypeError` otherwise. Strings are sliced by character. -/
def pySlice100 : Json → Except PyExc Json
  | .str s => .ok (.str ⟨s.data.take 100⟩)
  | .arr items => .ok (.arr (items.take 100))
  | _ => .error (.other "TypeError: value is not subscriptable")

/-- `msg.get("importance") in {"high", "urgent"}`. -/
def isUrgentImportance : Json → Bool
  | .str s => s == "high" || s == "urgent"
  | _ => false

/-- One message of the inbox listing, reshaped as in the loop body of
`mail_inbox`. -/
def formatInboxMessage (msg : Json) : Except PyExc Json := do
  let id ← msg.pyGet "id" .null
  let threadId ← msg.pyGet "thread_id" .null
  let fromName ← msg.pyGet "from" .null
  let subject ← msg.pyGet "subject" .null
  let createdTs ← msg.pyGet "created_ts" .null
  let readTs ← msg.pyGet "read_ts" .null
  let ackRequired ← msg.pyGet "ack_required" (.bool false)
  let importance ← msg.pyGet "importance" .null
  let bodyMd ← msg.pyGet "body_md" .null
  let preview ← if bodyMd.truthy then pySlice100 bodyMd else Except.ok (.str "")
  Except.ok (.obj [
    ("id", id), ("thread_id", threadId), ("from", fromName),
    ("subject", subject), ("created_ts", createdTs),
    ("unread", .bool (!readTs.truthy)),
    ("ack_required", ackRequired),
    ("urgent", .bool (isUrgentImportance importance)),
    ("preview", preview)])

/-- The client-side loop of `mail_inbox`: when `unread_only`, drop every
message with a truthy `read_ts`; reshape the survivors in order. -/
def formatInbox (unreadOnly : Bool) : List Json → Except PyExc (List Json)
  | [] => .ok []
  | msg :: rest => do
    let readTs ← msg.pyGet "read_ts" .null
    if unreadOnly && readTs.truthy then formatInbox unreadOnly rest
    else do
      let fm ← formatInboxMessage msg
      let fms ← formatInbox unreadOnly rest
      Except.ok (fm :: fms)

/-- `mail_send`: resolve configuration and project key, apply caller
overrides, issue one `send_message` write, and reshape the first delivery
into `{message_id, thread_id, sent_to}`; an empty `deliveries` list fails
with `INTERNAL_ERROR`. The `to` parameter is named `toRecipients` here
because `to` is reserved. -/
def mail_send (env : Env) (workspace : Option String) (transport : Nat → HttpOutcome)
    (uuid : String) (toRecipients : List String) (subject body : String) (urgent : Bool)
    (cc : Option (List String)) (project_key sender_name : Option String)
    (st : MailState) : Except PyExc Json × MailState :=
  match getConfig env with
  | .error e => (.error (.mail e), st)
  | .ok (_, autoAgentName, _) =>
    let autoProjectKey := getProjectKey env workspace
    let sender := pyOrStr sender_name autoAgentName
    let project := pyOrStr project_key autoProjectKey
    let importance := if urgent then "urgent" else "normal"
    let payload : Json := .obj [
      ("method", .str "tools/call"),
      ("params", .obj [
        ("name", .str "send_message"),
        ("arguments", .obj [
          ("project_key", .str project), ("sender_name", .str sender),
          ("to", .arr (toRecipients.map .str)), ("subject", .str subject),
          ("body_md", .str body), ("cc", .arr ((cc.getD []).map .str)),
          ("importance", .str importance)])])]
    match callAgentMail env transport uuid "POST" "/mcp/call" (some payload) none st with
    | (.error e, st1) => (.error (.mail e), st1)
    | (.ok result, st1) =>
      let reshaped : Except PyExc Json := do
        let deliveries ← result.pyGet "deliveries" (.arr [])
        if deliveries.truthy = false then
          Except.error (.mail ⟨.INTERNAL_ERROR,
            .str "No deliveries returned from Agent Mail", .obj []⟩)
        else do
          let first ← pyIndex0 deliveries
          let deliveryPayload ← first.pyGet "payload" (.obj [])
          let messageId ← deliveryPayload.pyGet "id" .null
          let threadId ← deliveryPayload.pyGet "thread_id" .null
          let count ← pyLen deliveries
          Except.ok (.obj [("message_id", messageId), ("thread_id", threadId),
            ("sent_to", count)])
      (reshaped, st1)

/-- `mail_inbox`: resolve configuration and project key, issue one
`fetch_inbox` call (the `cursor` argument is accepted but, exactly as in
the source, never used), filter and reshape client-side, and derive
`next_cursor` from the reshaped post-filter list. -/
def mail_inbox (env : Env) (workspace : Option String) (transport : Nat → HttpOutcome)
    (uuid : String) (limit : Int) (urgent_only unread_only : Bool)
    (cursor agent_name project_key : Option String) (st : MailState) :
    Except PyExc Json × MailState :=
  let _ := cursor
  match getConfig env with
  | .error e => (.error (.mail e), st)
  | .ok (_, autoAgentName, _) =>
    let autoProjectKey := getProjectKey env workspace
    let agent := pyOrStr agent_name autoAgentName
    let project := pyOrStr project_key autoProjectKey
    let payload : Json := .obj [
      ("method", .str "tools/call"),
      ("params", .obj [
        ("name", .str "fetch_inbox"),
        ("arguments", .obj [
          ("project_key", .str project), ("agent_name", .str agent),
          ("limit", .num limit), ("urgent_only", .bool urgent_only),
          ("include_bodies", .bool false)])])]
    match callAgentMail env transport uuid "POST" "/mcp/call" (some payload) none st with
    | (.error e, st1) => (.error (.mail e), st1)
    | (.ok result, st1) =>
      match formatInbox unread_only (asList result) with
      | .error exc => (.error exc, st1)
      | .ok fms =>
        let nextCursor : Json :=
          if fms.isEmpty = false ∧ limit ≤ (fms.length : Int) then
            .str (pyStr ((fms.getLastD .null).getN "id"))
          else .null
        (.ok (.obj [("messages", .arr fms), ("next_cursor", nextCursor)]), st1)

/-- The reshaping of the fetched message performed by `mail_read`. -/
def readReshapeMsg (msg : Json) : Except PyExc Json := do
  let id ← msg.pyGet "id" .null
  let threadId ← msg.pyGet "thread_id" .null
  let fromName ← msg.pyGet "from" .null
  let toList ← msg.pyGet "to" (.arr [])
  let subject ← msg.pyGet "subject" .null
  let bodyMd ← msg.pyGet "body_md" (.str "")
  let createdTs ← msg.pyGet "created_ts" .null
  let ackRequired ← msg.pyGet "ack_required" (.bool false)
  let ackTs ← msg.pyGet "ack_ts" .null
  let readTs ← msg.pyGet "read_ts" .null
  let importance ← msg.pyGet "importance" .null
  Except.ok (.obj [
    ("id", id), ("thread_id", threadId), ("from", fromName), ("to", toList),
    ("subject", subject), ("body", bodyMd), ("created_ts", createdTs),
    ("ack_required", ackRequired), ("ack_status", .bool ackTs.truthy),
    ("read_ts", readTs), ("urgent", .bool (isUrgentImportance importance))])

/-- The `mark_message_read` RPC payload shared by `mail_read` and
`mail_delete`. -/
def markReadPayload (project agent : String) (messageId : Int) : Json :=
  .obj [
    ("method", .str "tools/call"),
    ("params", .obj [
      ("name", .str "mark_message_read"),
      ("arguments", .obj [
        ("project_key", .str project), ("agent_name", .str agent),
        ("message_id", .num messageId)])])]

/-- `mail_read`: fetch the message via a resource-style GET; when
`mark_read`, issue a second `mark_message_read` write whose `MailError`
(the only exception it can raise) is logged and swallowed; then fail
`NOT_FOUND` on empty contents, else reshape the first content entry. -/
def mail_read (env : Env) (workspace : Option String) (transport : Nat → HttpOutcome)
    (uuid1 uuid2 : String) (message_id : Int) (mark_read : Bool)
    (agent_name project_key : Option String) (st : MailState) :
    Except PyExc Json × MailState :=
  match getConfig env with
  | .error e => (.error (.mail e), st)
  | .ok (_, autoAgentName, _) =>
    let autoProjectKey := getProjectKey env workspace
    let agent := pyOrStr agent_name autoAgentName
    let project := pyOrStr project_key autoProjectKey
    let endpoint := "/mcp/resources/resource://message/" ++ toString message_id
    match callAgentMail env transport uuid1 "GET" endpoint none none st with
    | (.error e, st1) => (.error (.mail e), st1)
    | (.ok result, st1) =>
      let st2 :=
        if mark_read then
          (callAgentMail env transport uuid2 "POST" "/mcp/call"
            (some (markReadPayload project agent message_id)) none st1).2
        else st1
      let reshaped : Except PyExc Json := do
        let contents ← result.pyGet "contents" (.arr [])
        if contents.truthy = false then
          Except.error (.mail ⟨.NOT_FOUND,
            .str ("Message " ++ toString message_id ++ " not found"), .obj []⟩)
        else do
          let msg ← pyIndex0 contents
          readReshapeMsg msg
      (reshaped, st2)

/-- `mail_reply`: one `reply_message` write; a truthy `subject` is passed
as `subject_prefix`; the ids come from the result's `reply` payload. -/
def mail_reply (env : Env) (workspace : Option String) (transport : Nat → HttpOutcome)
    (uuid : String) (message_id : Int) (body : String)
    (subject agent_name project_key : Option String) (st : MailState) :
    Except PyExc Json × MailState :=
  match getConfig env with
  | .error e => (.error (.mail e), st)
  | .ok (_, autoAgentName, _) =>
    let autoProjectKey := getProjectKey env workspace
    let sender := pyOrStr agent_name autoAgentName
    let project := pyOrStr project_key autoProjectKey
    let baseArgs : List (String × Json) := [
      ("project_key", .str project), ("message_id", .num message_id),
      ("sender_name", .str sender), ("body_md", .str body)]
    let args : List (String × Json) :=
      if strTruthy subject then baseArgs ++ [("subject_prefix", .str (subject.getD ""))]
      else baseArgs
    let payload : Json := .obj [
      ("method", .str "tools/call"),
      ("params", .obj [("name", .str "reply_message"), ("arguments", .obj args)])]
    match callAgentMail env transport uuid "POST" "/mcp/call" (some payload) none st with
    | (.error e, st1) => (.error (.mail e), st1)
    | (.ok result, st1) =>
      let reshaped : Except PyExc Json := do
        let reply ← result.pyGet "reply" (.obj [])
        let messageId ← reply.pyGet "id" .null
        let threadId ← reply.pyGet "thread_id" .null
        Except.ok (.obj [("message_id", messageId), ("thread_id", threadId)])
      (reshaped, st1)

/-- `mail_ack`: one `acknowledge_message` write; the success payload is
ignored and `{"acknowledged": true}` returned. -/
def mail_ack (env : Env) (workspace : Option String) (transport : Nat → HttpOutcome)
    (uuid : String) (message_id : Int) (agent_name project_key : Option String)
    (st : MailState) : Except PyExc Json × MailState :=
  match getConfig env with
  | .error e => (.error (.mail e), st)
  | .ok (_, autoAgentName, _) =>
    let autoProjectKey := getProjectKey env workspace
    let agent := pyOrStr agent_name autoAgentName
    let project := pyOrStr project_key autoProjectKey
    let payload : Json := .obj [
      ("method", .str "tools/call"),
      ("params", .obj [
        ("name", .str "acknowledge_message"),
        ("arguments", .obj [
          ("project_key", .str project), ("agent_name", .str agent),
          ("message_id", .num message_id)])])]
    match callAgentMail env transport uuid "POST" "/mcp/call" (some payload) none st with
    | (.error e, st1) => (.error (.mail e), st1)
    | (.ok _, st1) => (.ok (.obj [("acknowledged", .bool true)]), st1)

/-- `mail_delete`: resolve configuration and project key (outside the
error-swallowing region), then issue one `mark_message_read` write inside
a `try` that returns `{"archived": true}` on success and on any
`MailError` alike. -/
def mail_delete (env : Env) (workspace : Option String) (transport : Nat → HttpOutcome)
    (uuid : String) (message_id : Int) (agent_name project_key : Option String)
    (st : MailState) : Except PyExc Json × MailState :=
  match getConfig env with
  | .error e => (.error (.mail e), st)
  | .ok (_, autoAgentName, _) =>
    let autoProjectKey := getProjectKey env workspace
    let agent := pyOrStr agent_name autoAgentName
    let project := pyOrStr project_key autoProjectKey
    match callAgentMail env transport uuid "POST" "/mcp/call"
        (some (markReadPayload project agent message_id)) none st with
    | (.ok _, st1) => (.ok (.obj [("archived", .bool true)]), st1)
    | (.error _, st1) => (.ok (.obj [("archived", .bool true)]), st1)

/-- `beads_mail_send`: MCP tool wrapper; a raised `MailError` becomes the
value `{"error": code, "message": message, "data": data}`, while any
other exception propagates, as the `except MailError` clause dictates. -/
def beads_mail_send (env : Env) (workspace : Option String)
    (transport : Nat → HttpOutcome) (uuid : String) (toRecipients : List String)
    (subject body : String) (urgent : Bool) (cc : Option (List String))
    (project_key sender_name : Option String) (st : MailState) :
    Except PyExc Json × MailState :=
  match mail_send env workspace transport uuid toRecipients subject body urgent cc
      project_key sender_name st with
  | (.error (.mail e), st1) =>
    (.ok (.obj [("error", .str e.code.name), ("message", e.message), ("data", e.data)]), st1)
  | r => r

/-- `beads_mail_inbox`: MCP tool wrapper; a raised `MailError` becomes
`{"error": code, "message": message, "data": data}`. -/
def beads_mail_inbox (env : Env) (workspace : Option String)
    (transport : Nat → HttpOutcome) (uuid : String) (limit : Int)
    (urgent_only unread_only : Bool) (cursor agent_name project_key : Option String)
    (st : MailState) : Except PyExc Json × MailState :=
  match mail_inbox env workspace transport uuid limit urgent_only unread_only
      cursor agent_name project_key st with
  | (.error (.mail e), st1) =>
    (.ok (.obj [("error", .str e.code.name), ("message", e.message), ("data", e.data)]), st1)
  | r => r

/-- `beads_mail_read`: MCP tool wrapper; a raised `MailError` becomes
`{"error": code, "message": message, "data": data}`. -/
def beads_mail_read (env : Env) (workspace : Option String)
    (transport : Nat → HttpOutcome) (uuid1 uuid2 : String) (message_id : Int)
    (mark_read : Bool) (agent_name project_key : Option String) (st : MailState) :
    Except PyExc Json × MailState :=
  match mail_read env workspace transport uuid1 uuid2 message_id mark_read
      agent_name project_key st with
  | (.error (.mail e), st1) =>
    (.ok (.obj [("error", .str e.code.name), ("message", e.message), ("data", e.data)]), st1)
  | r => r

/-- `beads_mail_reply`: MCP tool wrapper; a raised `MailError` becomes
`{"error": code, "message": message, "data": data}`. -/
def beads_mail_reply (env : Env) (workspace : Option String)
    (transport : Nat → HttpOutcome) (uuid : String) (message_id : Int)
    (body : String) (subject agent_name project_key : Option String)
    (st : MailState) : Except PyExc Json × MailState :=
  match mail_reply env workspace transport uuid message_id body subject
      agent_name project_key st with
  | (.error (.mail e), st1) =>
    (.ok (.obj [("error", .str e.code.name), ("message", e.message), ("data", e.data)]), st1)
  | r => r

/-- `beads_mail_ack`: MCP tool wrapper; a raised `MailError` becomes
`{"error": code, "acknowledged": false, "message": message}` — note: no
`"data"` key, unlike the other wrappers. -/
def beads_mail_ack (env : Env) (workspace : Option String)
    (transport : Nat → HttpOutcome) (uuid : String) (message_id : Int)
    (agent_name project_key : Option String) (st : MailState) :
    Except PyExc Json × MailState :=
  match mail_ack env workspace transport uuid message_id agent_name project_key st with
  | (.error (.mail e), st1) =>
    (.ok (.obj [("error", .str e.code.name), ("acknowledged", .bool false),
      ("message", e.message)]), st1)
  | r => r

/-- `beads_mail_delete`: MCP tool wrapper; a raised `MailError` becomes
`{"error": code, "deleted": false, "message": message}` — note: no
`"data"` key, unlike the first four wrappers. -/
def beads_mail_delete (env : Env) (workspace : Option String)
    (transport : Nat → HttpOutcome) (uuid : String) (message_id : Int)
    (agent_name project_key : Option String) (st : MailState) :
    Except PyExc Json × MailState :=
  match mail_delete env workspace transport uuid message_id agent_name project_key st with
  | (.error (.mail e), st1) =>
    (.ok (.obj [("error", .str e.code.name), ("deleted", .bool false),
      ("message", e.message)]), st1)
  | r => r

/-- A fully configured environment, used by concrete witnesses. -/
def envOk : Env :=
  ⟨some "http://127.0.0.1:8765", some "tester", none, none, some "u", "/w"⟩

/-- An environment with no base URL configured. -/
def envNoUrl : Env := ⟨none, some "tester", none, none, some "u", "/w"⟩

/-- A transport whose every attempt is an HTTP 500 with an empty body. -/
def alwaysServerError : Nat → HttpOutcome := fun _ => .status 500 none "server error"

/-- A transport whose every attempt is an HTTP 404 with an empty body. -/
def always404 : Nat → HttpOutcome := fun _ => .status 404 none "gone"

/-- A transport whose every attempt succeeds with a fixed JSON body. -/
def alwaysOk (j : Json) : Nat → HttpOutcome := fun _ => .status 200 (some j) "ok"

/-- An unread remote message with id 1, used by concrete inbox inputs. -/
def sampleUnread : Json := .obj [("id", .num 1)]

/-- A read remote message with id 2 (truthy `read_ts`). -/
def sampleRead : Json := .obj [("id", .num 2), ("read_ts", .str "2024-01-01T00:00:00Z")]

/-- The formatted shape of `sampleUnread` in an inbox listing. -/
def sampleUnreadFormatted : Json :=
  .obj [("id", .num 1), ("thread_id", .null), ("from", .null),
    ("subject", .null), ("created_ts", .null), ("unread", .bool true),
    ("ack_required", .bool false), ("urgent", .bool false), ("preview", .str "")]

/-!  ## Supporting lemmas  -/

theorem getConfig_error_code (env : Env) (e : MailError)
    (h : getConfig env = .error e) : e.code = .NOT_CONFIGURED := by
  unfold getConfig at h
  split at h
  · cases h; rfl
  · split at h
    · cases h
    · split at h
      · cases h
      · cases h; rfl

theorem clientError_final (endpoint : String) (code attempt : Nat)
    (ct : Option Json) (tx : String)
    (hdict : code = 404 ∨ (ct.getD (.obj [("detail", .str tx)])).isObj = true) :
    ∃ e, clientError endpoint code attempt ct tx = .final (.error e) ∧
      e.code = (if code = 404 then ErrorCode.NOT_FOUND
                else if code = 409 then ErrorCode.CONFLICT
                else ErrorCode.INVALID_ARGUMENT) := by
  by_cases h4 : code = 404
  · refine ⟨⟨.NOT_FOUND, .str ("Resource not found: " ++ endpoint),
      ct.getD (.obj [("detail", .str tx)])⟩, ?_, ?_⟩
    · simp [clientError, h4]
    · simp [h4]
  · have hobj : (ct.getD (.obj [("detail", .str tx)])).isObj = true := by
      rcases hdict with h | h
      · exact absurd h h4
      · exact h
    rcases hE : ct.getD (.obj [("detail", .str tx)]) with _ | _ | _ | _ | _ | fields <;>
      rw [hE] at hobj <;> try simp [Json.isObj] at hobj
    by_cases h9 : code = 409
    · refine ⟨⟨.CONFLICT, (fields.lookup "detail").getD (.str "Conflict"),
        .obj fields⟩, ?_, ?_⟩
      · simp [clientError, hE, h4, h9, detailOr]
      · simp [h4, h9]
    · refine ⟨⟨.INVALID_ARGUMENT,
        (fields.lookup "detail").getD (.str ("HTTP " ++ toString code)),
        .obj fields⟩, ?_, ?_⟩
      · simp [clientError, hE, h4, h9, detailOr]
      · simp [h4, h9]

theorem classifyAttempt_server (ep b : String) (att code : Nat) (ct : Option Json)
    (tx : String) (h : 500 ≤ code) :
    classifyAttempt ep b att (.status code ct tx) = .retryable (serverError code att) := by
  have h1 : ¬ code < 400 := by omega
  have h2 : ¬ code < 500 := by omega
  simp [classifyAttempt, h1, h2]

theorem classifyAttempt_client (ep b : String) (att code : Nat) (ct : Option Json)
    (tx : String) (h4 : 400 ≤ code) (h5 : code < 500) :
    classifyAttempt ep b att (.status code ct tx) = clientError ep code att ct tx := by
  have h1 : ¬ code < 400 := by omega
  simp [classifyAttempt, h1, h5]

theorem classifyAttempt_success (ep b : String) (att code : Nat) (ct : Option Json)
    (tx : String) (h : code < 400) :
    classifyAttempt ep b att (.status code ct tx) = .final (.ok (ct.getD (.obj []))) := by
  simp [classifyAttempt, h]

theorem runAttempts_final (tr : Nat → HttpOutcome) (req : RequestInfo)
    (ep b : String) (rem att : Nat) (st : MailState) (r : Except MailError Json)
    (h : classifyAttempt ep b att (tr st.issued.length) = .final r) :
    runAttempts tr req ep b rem att st = (r, { st with issued := st.issued ++ [req] }) := by
  unfold runAttempts
  rw [h]

theorem runAttempts_retry_zero (tr : Nat → HttpOutcome) (req : RequestInfo)
    (ep b : String) (att : Nat) (st : MailState) (e : MailError)
    (h : classifyAttempt ep b att (tr st.issued.length) = .retryable e) :
    runAttempts tr req ep b 0 att st = (.error e, { st with issued := st.issued ++ [req] }) := by
  unfold runAttempts
  rw [h]

theorem runAttempts_retry_succ (tr : Nat → HttpOutcome) (req : RequestInfo)
    (ep b : String) (rem att : Nat) (st : MailState) (e : MailError)
    (h : classifyAttempt ep b att (tr st.issued.length) = .retryable e) :
    runAttempts tr req ep b (rem + 1) att st =
      runAttempts tr req ep b rem (att + 1)
        { st with issued := st.issued ++ [req],
                  slept := st.slept ++ [backoffDelayMs att] } := by
  conv =>
    lhs
    unfold runAttempts
  rw [h]

theorem runAttempts_calls (tr : Nat → HttpOutcome) (req : RequestInfo)
    (ep b : String) (rem : Nat) :
    ∀ (att : Nat) (st : MailState),
      (runAttempts tr req ep b rem att st).2.calls = st.calls := by
  induction rem with
  | zero =>
    intro att st
    unfold runAttempts
    cases classifyAttempt ep b att (tr st.issued.length) <;> simp
  | succ n ih =>
    intro att st
    unfold runAttempts
    cases classifyAttempt ep b att (tr st.issued.length) <;> simp [ih]

theorem runAttempts_issued (tr : Nat → HttpOutcome) (req : RequestInfo)
    (ep b : String) (rem : Nat) :
    ∀ (att : Nat) (st : MailState),
      ∃ k, 1 ≤ k ∧ k ≤ rem + 1 ∧
        (runAttempts tr req ep b rem att st).2.issued =
          st.issued ++ List.replicate k req := by
  induction rem with
  | zero =>
    intro att st
    refine ⟨1, le_refl 1, le_refl 1, ?_⟩
    unfold runAttempts
    cases classifyAttempt ep b att (tr st.issued.length) <;> simp
  | succ n ih =>
    intro att st
    unfold runAttempts
    cases classifyAttempt ep b att (tr st.issued.length) with
    | final r => exact ⟨1, le_refl 1, by omega, by simp⟩
    | retryable e =>
      obtain ⟨k, hk1, hk2, hk⟩ := ih (att + 1)
        { st with issued := st.issued ++ [req],
                  slept := st.slept ++ [backoffDelayMs att] }
      refine ⟨k + 1, by omega, by omega, ?_⟩
      simp only at hk
      simp [hk, List.replicate_succ, List.append_assoc]

/-- `_call_agent_mail` when configuration resolution fails: the error
propagates with no request issued and no state change. -/
theorem callAgentMail_cfg_error (env : Env) (tr : Nat → HttpOutcome)
    (uuid method endpoint : String) (jsonData params : Option Json) (st : MailState)
    (e : MailError) (hcfg : getConfig env = .error e) :
    callAgentMail env tr uuid method endpoint jsonData params st = (.error e, st) := by
  unfold callAgentMail
  rw [hcfg]

/-- `_call_agent_mail` when configuration resolution succeeds: it runs the
retry loop on the request built once from the resolved configuration. -/
theorem callAgentMail_ok_eq (env : Env) (tr : Nat → HttpOutcome)
    (uuid method endpoint : String) (jsonData params : Option Json) (st : MailState)
    (b a : String) (t : Option String) (hcfg : getConfig env = .ok (b, a, t)) :
    callAgentMail env tr uuid method endpoint jsonData params st =
      runAttempts tr ⟨method, urljoin b endpoint, buildHeaders t method jsonData uuid,
          jsonData, params⟩ endpoint b AGENT_MAIL_RETRIES 0
        { st with calls := st.calls ++ [(method, endpoint)] } := by
  unfold callAgentMail
  rw [hcfg]

/-- The retry loop with budget 2 when all three attempts classify as
retryable: three requests issued, two backoff sleeps, and the third
attempt's recorded error is raised. -/
theorem runAttempts_retries2_exhaust (tr : Nat → HttpOutcome) (req : RequestInfo)
    (ep b : String) (st : MailState) (e0v e1v e2v : MailError)
    (h0 : classifyAttempt ep b 0 (tr st.issued.length) = .retryable e0v)
    (h1 : classifyAttempt ep b 1 (tr (st.issued.length + 1)) = .retryable e1v)
    (h2 : classifyAttempt ep b 2 (tr (st.issued.length + 2)) = .retryable e2v) :
    runAttempts tr req ep b 2 0 st =
      (.error e2v,
       { st with issued := st.issued ++ [req, req, req],
                 slept := st.slept ++ [backoffDelayMs 0, backoffDelayMs 1] }) := by
  rw [show (2 : Nat) = 1 + 1 from rfl, runAttempts_retry_succ tr req ep b 1 0 st e0v h0]
  rw [show (1 : Nat) = 0 + 1 from rfl,
    runAttempts_retry_succ tr req ep b 0 (0 + 1) _ e1v (by simpa using h1)]
  rw [runAttempts_retry_zero tr req ep b (0 + 1 + 1) _ e2v (by simpa using h2)]
  simp

/-!  ## Claim theorems  -/

/-- **C2**: for every request-core call whose every attempt receives an
HTTP status ≥ 500, with the retry count configured as 2
(`AGENT_MAIL_RETRIES`), exactly 3 attempts are made, separated by
exponential backoff sleeps of `0.5 * 2 ^ attempt` seconds
(`backoffDelayMs 0` then `backoffDelayMs 1`, none after the final
attempt), and the call fails with the normalized code `UNAVAILABLE`. -/
theorem C2_server_errors_retry_three_attempts (env : Env) (tr : Nat → HttpOutcome)
    (uuid method endpoint : String) (jsonData params : Option Json) (st : MailState)
    (b a : String) (t : Option String)
    (hcfg : getConfig env = .ok (b, a, t))
    (h5xx : ∀ n, ∃ code content text,
      tr n = .status code content text ∧ 500 ≤ code) :
    ∃ e, (callAgentMail env tr uuid method endpoint jsonData params st).1 = .error e ∧
      e.code = .UNAVAILABLE ∧
      (callAgentMail env tr uuid method endpoint jsonData params st).2.issued.length =
        st.issued.length + 3 ∧
      (callAgentMail env tr uuid method endpoint jsonData params st).2.slept =
        st.slept ++ [backoffDelayMs 0, backoffDelayMs 1] := by
  obtain ⟨c0, ct0, tx0, htr0, hc0⟩ := h5xx st.issued.length
  obtain ⟨c1, ct1, tx1, htr1, hc1⟩ := h5xx (st.issued.length + 1)
  obtain ⟨c2, ct2, tx2, htr2, hc2⟩ := h5xx (st.issued.length + 2)
  rw [callAgentMail_ok_eq env tr uuid method endpoint jsonData params st b a t hcfg]
  have h0 : classifyAttempt endpoint b 0
      (tr ({ st with calls := st.calls ++ [(method, endpoint)] } : MailState).issued.length) =
      .retryable (serverError c0 0) := by
    show classifyAttempt endpoint b 0 (tr st.issued.length) = _
    rw [htr0]
    exact classifyAttempt_server _ _ _ _ _ _ hc0
  have h1 : classifyAttempt endpoint b 1
      (tr (({ st with calls := st.calls ++ [(method, endpoint)] } : MailState).issued.length + 1)) =
      .retryable (serverError c1 1) := by
    show classifyAttempt endpoint b 1 (tr (st.issued.length + 1)) = _
    rw [htr1]
    exact classifyAttempt_server _ _ _ _ _ _ hc1
  have h2 : classifyAttempt endpoint b 2
      (tr (({ st with calls := st.calls ++ [(method, endpoint)] } : MailState).issued.length + 2)) =
      .retryable (serverError c2 2) := by
    show classifyAttempt endpoint b 2 (tr (st.issued.length + 2)) = _
    rw [htr2]
    exact classifyAttempt_server _ _ _ _ _ _ hc2
  rw [show AGENT_MAIL_RETRIES = 2 from rfl, runAttempts_retries2_exhaust tr _ endpoint b _
    (serverError c0 0) (serverError c1 1) (serverError c2 2) h0 h1 h2]
  exact ⟨serverError c2 2, rfl, rfl, by simp, by simp⟩

/-- **C2 witness**: against a transport that always answers HTTP 500 and
a configured environment, the call makes 3 attempts, sleeps 500 then 1000
milliseconds (0.5 s and 1.0 s), and fails `UNAVAILABLE`. -/
theorem C2_witness :
    ∃ e, (callAgentMail envOk alwaysServerError "u" "POST" "/mcp/call"
        (some (.obj [("x", .num 1)])) none {}).1 = .error e ∧
      e.code = .UNAVAILABLE ∧
      (callAgentMail envOk alwaysServerError "u" "POST" "/mcp/call"
        (some (.obj [("x", .num 1)])) none {}).2.issued.length =
        (({} : MailState)).issued.length + 3 ∧
      (callAgentMail envOk alwaysServerError "u" "POST" "/mcp/call"
        (some (.obj [("x", .num 1)])) none {}).2.slept =
        (({} : MailState)).slept ++ [backoffDelayMs 0, backoffDelayMs 1] :=
  C2_server_errors_retry_three_attempts envOk alwaysServerError "u" "POST" "/mcp/call"
    (some (.obj [("x", .num 1)])) none {} "http://127.0.0.1:8765" "tester" none rfl
    (fun n => ⟨500, none, "server error", rfl, by omega⟩)

/-- **C3 counterexample**: a request-core call whose every attempt
receives an HTTP 409 whose JSON body is the list `[1]`:
`error_data.get("detail", "Conflict")` raises `AttributeError` (a list
has no `.get`), which the generic `except Exception` clause records as a
retryable `INTERNAL_ERROR` — so the call makes 3 attempts with 2 backoff
sleeps and fails `INTERNAL_ERROR`, refuting the claim of exactly one
attempt and `CONFLICT`. -/
theorem C3_counterexample :
    ∃ e, (callAgentMail envOk (fun _ => .status 409 (some (.arr [.num 1])) "conflict")
        "u" "POST" "/mcp/call" (some (.obj [("x", .num 1)])) none {}).1 = .error e ∧
      e.code = .INTERNAL_ERROR ∧
      (callAgentMail envOk (fun _ => .status 409 (some (.arr [.num 1])) "conflict")
        "u" "POST" "/mcp/call" (some (.obj [("x", .num 1)])) none {}).2.issued.length = 3 ∧
      (callAgentMail envOk (fun _ => .status 409 (some (.arr [.num 1])) "conflict")
        "u" "POST" "/mcp/call" (some (.obj [("x", .num 1)])) none {}).2.slept =
        [backoffDelayMs 0, backoffDelayMs 1] :=
  ⟨_, rfl, rfl, rfl, rfl⟩

/-- **C3 amended**: a request-core call whose first attempt receives an
HTTP 4xx status makes exactly one attempt (no retry, no backoff sleep)
and fails with `NOT_FOUND` for 404, `CONFLICT` for 409, and
`INVALID_ARGUMENT` for any other 4xx — provided the status is 404 (whose
message never touches the body) or the error body is a JSON dict
(including the `{"detail": text}` fallback when the body is absent or
unparseable). A non-404 4xx whose JSON body is a non-dict instead raises
`AttributeError` during message construction, recorded as retryable
`INTERNAL_ERROR` and retried — see the counterexample. -/
theorem C3_client_error_dict_single_attempt (env : Env) (tr : Nat → HttpOutcome)
    (uuid method endpoint : String) (jsonData params : Option Json) (st : MailState)
    (b a : String) (t : Option String) (code : Nat) (ct : Option Json) (tx : String)
    (hcfg : getConfig env = .ok (b, a, t))
    (htr : tr st.issued.length = .status code ct tx)
    (h4 : 400 ≤ code) (h5 : code < 500)
    (hdict : code = 404 ∨ (ct.getD (.obj [("detail", .str tx)])).isObj = true) :
    ∃ e, (callAgentMail env tr uuid method endpoint jsonData params st).1 = .error e ∧
      e.code = (if code = 404 then ErrorCode.NOT_FOUND
                else if code = 409 then ErrorCode.CONFLICT
                else ErrorCode.INVALID_ARGUMENT) ∧
      (callAgentMail env tr uuid method endpoint jsonData params st).2.issued.length =
        st.issued.length + 1 ∧
      (callAgentMail env tr uuid method endpoint jsonData params st).2.slept = st.slept := by
  obtain ⟨e, hce, hcode⟩ := clientError_final endpoint code 0 ct tx hdict
  rw [callAgentMail_ok_eq env tr uuid method endpoint jsonData params st b a t hcfg]
  have h0 : classifyAttempt endpoint b 0
      (tr ({ st with calls := st.calls ++ [(method, endpoint)] } : MailState).issued.length) =
      .final (.error e) := by
    show classifyAttempt endpoint b 0 (tr st.issued.length) = _
    rw [htr, classifyAttempt_client _ _ _ _ _ _ h4 h5, hce]
  rw [runAttempts_final _ _ _ _ _ _ _ _ h0]
  exact ⟨e, rfl, hcode, by simp, rfl⟩

/-- **C3 witness**: a 409 whose body is the dict `{"detail": "dupe"}`
yields one attempt, no sleep, and `CONFLICT`. -/
theorem C3_witness :
    ∃ e, (callAgentMail envOk
        (fun _ => .status 409 (some (.obj [("detail", .str "dupe")])) "conflict")
        "u" "POST" "/mcp/call" (some (.obj [("x", .num 1)])) none {}).1 = .error e ∧
      e.code = (if 409 = 404 then ErrorCode.NOT_FOUND
                else if 409 = 409 then ErrorCode.CONFLICT
                else ErrorCode.INVALID_ARGUMENT) ∧
      (callAgentMail envOk
        (fun _ => .status 409 (some (.obj [("detail", .str "dupe")])) "conflict")
        "u" "POST" "/mcp/call" (some (.obj [("x", .num 1)])) none {}).2.issued.length =
        (({} : MailState)).issued.length + 1 ∧
      (callAgentMail envOk
        (fun _ => .status 409 (some (.obj [("detail", .str "dupe")])) "conflict")
        "u" "POST" "/mcp/call" (some (.obj [("x", .num 1)])) none {}).2.slept =
        (({} : MailState)).slept :=
  C3_client_error_dict_single_attempt envOk
    (fun _ => .status 409 (some (.obj [("detail", .str "dupe")])) "conflict")
    "u" "POST" "/mcp/call" (some (.obj [("x", .num 1)])) none {}
    "http://127.0.0.1:8765" "tester" none 409 (some (.obj [("detail", .str "dupe")]))
    "conflict" rfl rfl (by omega) (by omega) (Or.inr rfl)

/-- **C4**: with no (truthy) base URL configured, each of the six
operations fails with the `NOT_CONFIGURED` error and returns the effect
state unchanged — no HTTP request is issued. -/
theorem C4_missing_url_no_request (env : Env) (ws : Option String)
    (tr : Nat → HttpOutcome) (uuid uuid2 : String) (recipients : List String)
    (subject bodyText : String) (urgent : Bool) (cc : Option (List String))
    (limit : Int) (uo ur markRead : Bool) (mid : Int)
    (cur an pk sn : Option String) (st : MailState)
    (hurl : strTruthy env.mailUrl = false) :
    mail_send env ws tr uuid recipients subject bodyText urgent cc pk sn st =
      (.error (.mail urlNotConfiguredError), st) ∧
    mail_inbox env ws tr uuid limit uo ur cur an pk st =
      (.error (.mail urlNotConfiguredError), st) ∧
    mail_read env ws tr uuid uuid2 mid markRead an pk st =
      (.error (.mail urlNotConfiguredError), st) ∧
    mail_reply env ws tr uuid mid bodyText cur an pk st =
      (.error (.mail urlNotConfiguredError), st) ∧
    mail_ack env ws tr uuid mid an pk st =
      (.error (.mail urlNotConfiguredError), st) ∧
    mail_delete env ws tr uuid mid an pk st =
      (.error (.mail urlNotConfiguredError), st) ∧
    urlNotConfiguredError.code = .NOT_CONFIGURED := by
  have hcfg : getConfig env = .error urlNotConfiguredError := by
    simp [getConfig, hurl]
  refine ⟨?_, ?_, ?_, ?_, ?_, ?_, rfl⟩ <;>
    simp only [mail_send, mail_inbox, mail_read, mail_reply, mail_ack, mail_delete, hcfg]

/-- **C4 witness**: at an environment with `BEADS_AGENT_MAIL_URL` unset,
all six operations return the `NOT_CONFIGURED` failure unchanged. -/
theorem C4_witness :
    mail_send envNoUrl none always404 "u" ["alice"] "s" "b" false none none none {} =
      (.error (.mail urlNotConfiguredError), {}) ∧
    mail_inbox envNoUrl none always404 "u" 20 false false none none none {} =
      (.error (.mail urlNotConfiguredError), {}) ∧
    mail_read envNoUrl none always404 "u" "u2" 1 true none none {} =
      (.error (.mail urlNotConfiguredError), {}) ∧
    mail_reply envNoUrl none always404 "u" 1 "b" none none none {} =
      (.error (.mail urlNotConfiguredError), {}) ∧
    mail_ack envNoUrl none always404 "u" 1 none none {} =
      (.error (.mail urlNotConfiguredError), {}) ∧
    mail_delete envNoUrl none always404 "u" 1 none none {} =
      (.error (.mail urlNotConfiguredError), {}) ∧
    urlNotConfiguredError.code = .NOT_CONFIGURED :=
  C4_missing_url_no_request envNoUrl none always404 "u" "u2" ["alice"] "s" "b" false none
    20 false false true 1 none none none none {} rfl

/-- **C5**: with resolvable configuration, `mail_delete` returns
`{"archived": true}` for every transport behavior — both when the
underlying mark-as-read call succeeds and when it raises any normalized
`MailError`; no error from the underlying call reaches the caller. -/
theorem C5_delete_always_archived (env : Env) (ws : Option String)
    (tr : Nat → HttpOutcome) (uuid : String) (mid : Int)
    (an pk : Option String) (st : MailState)
    (b a : String) (t : Option String)
    (hcfg : getConfig env = .ok (b, a, t)) :
    (mail_delete env ws tr uuid mid an pk st).1 = .ok (.obj [("archived", .bool true)]) := by
  simp only [mail_delete, hcfg]
  rcases hc : callAgentMail env tr uuid "POST" "/mcp/call"
      (some (markReadPayload (pyOrStr pk (getProjectKey env ws)) (pyOrStr an a) mid))
      none st with ⟨r, st1⟩
  cases r <;> simp [hc]

/-- **C5 witness**: `mail_delete` reports `{"archived": true}` even when
the underlying mark-as-read call fails with `NOT_FOUND` (a 404-only
transport). -/
theorem C5_witness :
    (mail_delete envOk none always404 "u" 77 none none {}).1 =
      .ok (.obj [("archived", .bool true)]) :=
  C5_delete_always_archived envOk none always404 "u" 77 none none {}
    "http://127.0.0.1:8765" "tester" none rfl

/-- **C1 counterexample**: `mail_inbox` with `limit = 2` and
`unread_only = true` against exactly 2 remote messages (ids 1 and 2, the
second read): the count returned by the remote service reaches `limit`,
yet `next_cursor` is `null` — refuting the claim that the cursor is
present (as the string form of the last returned message's id) exactly
when the pre-filter remote count reached `limit`. -/
theorem C1_counterexample :
    (asList (.arr [sampleUnread, sampleRead])).length = 2 ∧
    (mail_inbox envOk none (alwaysOk (.arr [sampleUnread, sampleRead])) "u" 2 false true
        none none none {}).1 =
      .ok (.obj [("messages", .arr [sampleUnreadFormatted]), ("next_cursor", .null)]) :=
  ⟨rfl, rfl⟩

/-- **C1 amended**: `next_cursor` is the string form of the last
*post-filter* reshaped message's id if and only if the *post-filter*
reshaped count (after the client-side `unread_only` filtering) is
nonempty and reached `limit`; otherwise it is `null`. The pre-filter
remote count plays no role. Stated over an arbitrary remote response
`resp`. -/
theorem C1_next_cursor_from_filtered (env : Env) (ws : Option String)
    (uuid : String) (limit : Int) (uo ur : Bool) (cur an pk : Option String)
    (st : MailState) (resp : Json) (fm : List Json)
    (b a : String) (t : Option String)
    (hcfg : getConfig env = .ok (b, a, t))
    (hfmt : formatInbox ur (asList resp) = .ok fm) :
    (mail_inbox env ws (alwaysOk resp) uuid limit uo ur cur an pk st).1 =
      .ok (.obj [("messages", .arr fm),
        ("next_cursor",
          if fm.isEmpty = false ∧ limit ≤ (fm.length : Int) then
            .str (pyStr ((fm.getLastD .null).getN "id"))
          else .null)]) := by
  simp only [mail_inbox, hcfg]
  rw [callAgentMail_ok_eq env (alwaysOk resp) uuid "POST" "/mcp/call" _ none st b a t hcfg]
  rw [runAttempts_final _ _ _ _ _ _ _ (.ok ((some resp).getD (.obj [])))
    (classifyAttempt_success _ _ _ 200 (some resp) "ok" (by omega))]
  simp only [Option.getD, hfmt]

/-- **C1 witness**: with two unread remote messages (ids 1 and 2) and
`limit = 2`, the post-filter count reaches the limit and `next_cursor` is
`"2"`. -/
theorem C1_witness :
    (mail_inbox envOk none (alwaysOk (.arr [sampleUnread, .obj [("id", .num 2)]]))
        "u" 2 false false none none none {}).1 =
      .ok (.obj [("messages", .arr [sampleUnreadFormatted,
          .obj [("id", .num 2), ("thread_id", .null), ("from", .null),
            ("subject", .null), ("created_ts", .null), ("unread", .bool true),
            ("ack_required", .bool false), ("urgent", .bool false),
            ("preview", .str "")]]),
        ("next_cursor",
          if ([sampleUnreadFormatted,
              .obj [("id", .num 2), ("thread_id", .null), ("from", .null),
                ("subject", .null), ("created_ts", .null), ("unread", .bool true),
                ("ack_required", .bool false), ("urgent", .bool false),
                ("preview", .str "")]] : List Json).isEmpty = false ∧
            (2 : Int) ≤ (([sampleUnreadFormatted,
              .obj [("id", .num 2), ("thread_id", .null), ("from", .null),
                ("subject", .null), ("created_ts", .null), ("unread", .bool true),
                ("ack_required", .bool false), ("urgent", .bool false),
                ("preview", .str "")]] : List Json).length : Int) then
            .str (pyStr ((([sampleUnreadFormatted,
              .obj [("id", .num 2), ("thread_id", .null), ("from", .null),
                ("subject", .null), ("created_ts", .null), ("unread", .bool true),
                ("ack_required", .bool false), ("urgent", .bool false),
                ("preview", .str "")]] : List Json).getLastD .null).getN "id"))
          else .null)]) :=
  C1_next_cursor_from_filtered envOk none "u" 2 false false none none none {}
    (.arr [sampleUnread, .obj [("id", .num 2)]]) _
    "http://127.0.0.1:8765" "tester" none rfl rfl

/-- **C6 counterexample**: when its underlying operation raises
`NOT_CONFIGURED`, the `beads_mail_ack` wrapper returns
`{"error": ..., "acknowledged": false, "message": ...}` — a mapping with
no `"data"` key, refuting the claim that every wrapper's error value has
the form `{error, message, data}`. -/
theorem C6_counterexample :
    (beads_mail_ack envNoUrl none always404 "u" 1 none none {}).1 =
      .ok (.obj [("error", .str "NOT_CONFIGURED"), ("acknowledged", .bool false),
        ("message", urlNotConfiguredError.message)]) ∧
    (Json.obj [("error", .str "NOT_CONFIGURED"), ("acknowledged", .bool false),
        ("message", urlNotConfiguredError.message)]).get "data" = none :=
  ⟨rfl, rfl⟩

/-- **C6 amended**: every MCP-tool wrapper converts a raised `MailError`
into a value-shaped mapping carrying the error code under the `"error"`
key instead of propagating the exception; `send`, `inbox`, `read` and
`reply` return `{error, message, data}`, while `ack` returns
`{error, acknowledged: false, message}` and `delete` returns
`{error, deleted: false, message}` (both without a `"data"` key). -/
theorem C6_wrappers_error_values (env : Env) (ws : Option String)
    (tr : Nat → HttpOutcome) (uuid uuid2 : String) (recipients : List String)
    (subject bodyText : String) (urgent : Bool) (cc : Option (List String))
    (limit : Int) (uo ur markRead : Bool) (mid : Int)
    (cur an pk sn : Option String) (st : MailState) (e : MailError) (st1 : MailState) :
    (mail_send env ws tr uuid recipients subject bodyText urgent cc pk sn st =
        (.error (.mail e), st1) →
      beads_mail_send env ws tr uuid recipients subject bodyText urgent cc pk sn st =
        (.ok (.obj [("error", .str e.code.name), ("message", e.message),
          ("data", e.data)]), st1)) ∧
    (mail_inbox env ws tr uuid limit uo ur cur an pk st = (.error (.mail e), st1) →
      beads_mail_inbox env ws tr uuid limit uo ur cur an pk st =
        (.ok (.obj [("error", .str e.code.name), ("message", e.message),
          ("data", e.data)]), st1)) ∧
    (mail_read env ws tr uuid uuid2 mid markRead an pk st = (.error (.mail e), st1) →
      beads_mail_read env ws tr uuid uuid2 mid markRead an pk st =
        (.ok (.obj [("error", .str e.code.name), ("message", e.message),
          ("data", e.data)]), st1)) ∧
    (mail_reply env ws tr uuid mid bodyText cur an pk st = (.error (.mail e), st1) →
      beads_mail_reply env ws tr uuid mid bodyText cur an pk st =
        (.ok (.obj [("error", .str e.code.name), ("message", e.message),
          ("data", e.data)]), st1)) ∧
    (mail_ack env ws tr uuid mid an pk st = (.error (.mail e), st1) →
      beads_mail_ack env ws tr uuid mid an pk st =
        (.ok (.obj [("error", .str e.code.name), ("acknowledged", .bool false),
          ("message", e.message)]), st1)) ∧
    (mail_delete env ws tr uuid mid an pk st = (.error (.mail e), st1) →
      beads_mail_delete env ws tr uuid mid an pk st =
        (.ok (.obj [("error", .str e.code.name), ("deleted", .bool false),
          ("message", e.message)]), st1)) := by
  refine ⟨fun h => ?_, fun h => ?_, fun h => ?_, fun h => ?_, fun h => ?_, fun h => ?_⟩ <;>
    simp only [beads_mail_send, beads_mail_inbox, beads_mail_read, beads_mail_reply,
      beads_mail_ack, beads_mail_delete, h]

/-- **C6 witness**: at an environment with no base URL, each of the six
wrappers returns its error-valued mapping (with the `NOT_CONFIGURED`
code) rather than propagating the `MailError`. -/
theorem C6_witness :
    beads_mail_send envNoUrl none always404 "u" ["alice"] "s" "b" false none none none {} =
      (.ok (.obj [("error", .str urlNotConfiguredError.code.name),
        ("message", urlNotConfiguredError.message), ("data", urlNotConfiguredError.data)]),
       {}) ∧
    beads_mail_inbox envNoUrl none always404 "u" 20 false false none none none {} =
      (.ok (.obj [("error", .str urlNotConfiguredError.code.name),
        ("message", urlNotConfiguredError.message), ("data", urlNotConfiguredError.data)]),
       {}) ∧
    beads_mail_read envNoUrl none always404 "u" "u2" 1 true none none {} =
      (.ok (.obj [("error", .str urlNotConfiguredError.code.name),
        ("message", urlNotConfiguredError.message), ("data", urlNotConfiguredError.data)]),
       {}) ∧
    beads_mail_reply envNoUrl none always404 "u" 1 "b" none none none {} =
      (.ok (.obj [("error", .str urlNotConfiguredError.code.name),
        ("message", urlNotConfiguredError.message), ("data", urlNotConfiguredError.data)]),
       {}) ∧
    beads_mail_ack envNoUrl none always404 "u" 1 none none {} =
      (.ok (.obj [("error", .str urlNotConfiguredError.code.name),
        ("acknowledged", .bool false), ("message", urlNotConfiguredError.message)]), {}) ∧
    beads_mail_delete envNoUrl none always404 "u" 1 none none {} =
      (.ok (.obj [("error", .str urlNotConfiguredError.code.name),
        ("deleted", .bool false), ("message", urlNotConfiguredError.message)]), {}) := by
  have h := C6_wrappers_error_values envNoUrl none always404 "u" "u2" ["alice"] "s" "b"
    false none 20 false false true 1 none none none none {} urlNotConfiguredError {}
  exact ⟨h.1 rfl, h.2.1 rfl, h.2.2.1 rfl, h.2.2.2.1 rfl, h.2.2.2.2.1 rfl, h.2.2.2.2.2 rfl⟩

/-- **C7 counterexample**: with `BEADS_PROJECT_ID` set to a relative
string, project-key resolution returns it verbatim — not an absolute
path-like string — refuting the claim that each source is returned as an
absolute path-like string. -/
theorem C7_counterexample :
    getProjectKey ⟨some "http://h", some "a", none, some "relative/dir", some "u", "/w"⟩
        none = "relative/dir" ∧
    isAbsolutePath "relative/dir" = false :=
  ⟨rfl, rfl⟩

theorem isAbsolutePath_append (a b : String) (h : isAbsolutePath a = true) :
    isAbsolutePath (a ++ b) = true := by
  unfold isAbsolutePath at h ⊢
  rw [String.data_append a b]
  cases ha : a.data with
  | nil => rw [ha] at h; exact absurd h (by simp)
  | cons c l => rw [ha] at h; exact h

theorem abspath_isAbsolute (cwd p : String) (h : isAbsolutePath cwd = true) :
    isAbsolutePath (abspath cwd p) = true := by
  unfold abspath
  by_cases hp : isAbsolutePath p
  · rw [if_pos hp]; exact hp
  · rw [if_neg hp]; exact isAbsolutePath_append _ _ (isAbsolutePath_append _ _ h)

/-- **C7 amended**: project-key resolution tries, in order, the explicit
override, the `BEADS_PROJECT_ID` environment value, the discovered
workspace root, and the current working directory, and never fails (it is
a total function); the override and the environment value are returned
verbatim (not forced absolute — see the counterexample), while the
workspace root and the current directory are passed through `abspath`
and are absolute whenever the working directory is. -/
theorem C7_resolution_order (override : Option String) (env : Env) (ws : Option String) :
    (strTruthy override = true → resolveProjectKey override env ws = override.getD "") ∧
    (strTruthy override = false → strTruthy env.projectId = true →
      resolveProjectKey override env ws = env.projectId.getD "") ∧
    (strTruthy override = false → strTruthy env.projectId = false → strTruthy ws = true →
      resolveProjectKey override env ws = abspath env.cwd (ws.getD "")) ∧
    (strTruthy override = false → strTruthy env.projectId = false → strTruthy ws = false →
      resolveProjectKey override env ws = abspath env.cwd env.cwd) ∧
    (strTruthy override = false → strTruthy env.projectId = false →
      isAbsolutePath env.cwd = true →
      isAbsolutePath (resolveProjectKey override env ws) = true) := by
  have hover : ∀ h : strTruthy override = true,
      resolveProjectKey override env ws = override.getD "" := by
    intro h
    cases override with
    | none => simp [strTruthy] at h
    | some s =>
      have hs : ¬ s = "" := by simpa [strTruthy] using h
      simp [resolveProjectKey, pyOrStr, hs]
  have hfall : ∀ h : strTruthy override = false,
      resolveProjectKey override env ws = getProjectKey env ws := by
    intro h
    cases override with
    | none => simp [resolveProjectKey, pyOrStr]
    | some s =>
      have hs : s = "" := by simpa [strTruthy] using h
      simp [resolveProjectKey, pyOrStr, hs]
  refine ⟨hover, ?_, ?_, ?_, ?_⟩
  · intro h hp
    rw [hfall h]
    simp [getProjectKey, hp]
  · intro h hp hw
    rw [hfall h]
    simp [getProjectKey, hp, hw]
  · intro h hp hw
    rw [hfall h]
    simp [getProjectKey, hp, hw]
  · intro h hp habs
    rw [hfall h]
    unfold getProjectKey
    rw [hp]
    by_cases hw : strTruthy ws = true
    · simp only [hw, if_true, if_false, Bool.false_eq_true]
      exact abspath_isAbsolute _ _ habs
    · simp only [hw, Bool.false_eq_true, if_false]
      exact abspath_isAbsolute _ _ habs

/-- **C7 witness**: concrete instances of each resolution step — an
explicit override wins; with no override the environment value wins; with
neither, the workspace root (made absolute) wins; with none of the three,
the current directory is used; and with a relative workspace root and an
absolute working directory the result is absolute. -/
theorem C7_witness :
    resolveProjectKey (some "/override") ⟨none, none, none, some "pid", none, "/w"⟩
      (some "/ws") = "/override" ∧
    resolveProjectKey none ⟨none, none, none, some "pid", none, "/w"⟩ (some "/ws") = "pid" ∧
    resolveProjectKey none ⟨none, none, none, none, none, "/w"⟩ (some "rel") =
      abspath "/w" "rel" ∧
    resolveProjectKey none ⟨none, none, none, none, none, "/w"⟩ none = abspath "/w" "/w" ∧
    isAbsolutePath (resolveProjectKey none ⟨none, none, none, none, none, "/w"⟩
      (some "rel")) = true := by
  refine ⟨?_, ?_, ?_, ?_, ?_⟩
  · exact (C7_resolution_order (some "/override")
      ⟨none, none, none, some "pid", none, "/w"⟩ (some "/ws")).1 rfl
  · exact (C7_resolution_order none
      ⟨none, none, none, some "pid", none, "/w"⟩ (some "/ws")).2.1 rfl rfl
  · exact (C7_resolution_order none
      ⟨none, none, none, none, none, "/w"⟩ (some "rel")).2.2.1 rfl rfl rfl
  · exact (C7_resolution_order none
      ⟨none, none, none, none, none, "/w"⟩ none).2.2.2.1 rfl rfl rfl
  · exact (C7_resolution_order none
      ⟨none, none, none, none, none, "/w"⟩ (some "rel")).2.2.2.2 rfl rfl rfl

theorem callAgentMail_first_success (env : Env) (tr : Nat → HttpOutcome)
    (uuid m ep : String) (jd p : Option Json) (st : MailState)
    (b a : String) (t : Option String) (code : Nat) (ct : Option Json) (tx : String)
    (hcfg : getConfig env = .ok (b, a, t))
    (htr : tr st.issued.length = .status code ct tx) (hcode : code < 400) :
    callAgentMail env tr uuid m ep jd p st =
      (.ok (ct.getD (.obj [])),
       { st with
         issued := st.issued ++ [⟨m, urljoin b ep, buildHeaders t m jd uuid, jd, p⟩],
         calls := st.calls ++ [(m, ep)] }) := by
  rw [callAgentMail_ok_eq env tr uuid m ep jd p st b a t hcfg]
  rw [runAttempts_final _ _ _ _ _ _ _ (.ok (ct.getD (.obj [])))
    (by
      show classifyAttempt ep b 0 (tr st.issued.length) = .final (.ok (ct.getD (.obj [])))
      rw [htr]
      exact classifyAttempt_success _ _ _ _ _ _ hcode)]

theorem callAgentMail_calls (env : Env) (tr : Nat → HttpOutcome)
    (uuid m ep : String) (jd p : Option Json) (st : MailState)
    (b a : String) (t : Option String) (hcfg : getConfig env = .ok (b, a, t)) :
    (callAgentMail env tr uuid m ep jd p st).2.calls = st.calls ++ [(m, ep)] := by
  rw [callAgentMail_ok_eq env tr uuid m ep jd p st b a t hcfg]
  rw [runAttempts_calls]

/-- **C8**: with resolvable configuration and a fetch whose first attempt
succeeds with a nonempty `contents` list whose head is a JSON object,
`mail_read` with `mark_read = true` performs exactly two logical
request-core calls — the resource GET, then the `mark_message_read`
write — and returns the reshaped message no matter how the second call's
attempts turn out (its `MailError`, the only exception it can raise, is
logged and swallowed); with `mark_read = false` exactly one call is
performed, with the same result. -/
theorem C8_read_secondary_call_suppressed (env : Env) (ws : Option String)
    (tr : Nat → HttpOutcome) (uuid1 uuid2 : String) (mid : Int)
    (an pk : Option String) (st : MailState) (b a : String) (t : Option String)
    (code : Nat) (tx : String) (respFields mf : List (String × Json)) (rest : List Json)
    (hcfg : getConfig env = .ok (b, a, t))
    (htr : tr st.issued.length = .status code (some (.obj respFields)) tx)
    (hcode : code < 400)
    (hcontents : respFields.lookup "contents" = some (.arr (.obj mf :: rest))) :
    ∃ v, readReshapeMsg (.obj mf) = .ok v ∧
      (mail_read env ws tr uuid1 uuid2 mid true an pk st).1 = .ok v ∧
      (mail_read env ws tr uuid1 uuid2 mid false an pk st).1 = .ok v ∧
      (mail_read env ws tr uuid1 uuid2 mid true an pk st).2.calls =
        st.calls ++ [("GET", "/mcp/resources/resource://message/" ++ toString mid),
          ("POST", "/mcp/call")] ∧
      (mail_read env ws tr uuid1 uuid2 mid false an pk st).2.calls =
        st.calls ++ [("GET", "/mcp/resources/resource://message/" ++ toString mid)] := by
  have hfetch := callAgentMail_first_success env tr uuid1 "GET"
    ("/mcp/resources/resource://message/" ++ toString mid) none none st b a t code
    (some (.obj respFields)) tx hcfg htr hcode
  refine ⟨_, rfl, ?_, ?_, ?_, ?_⟩
  · simp only [mail_read, hcfg, hfetch]
    simp only [Option.getD, Json.pyGet, hcontents]
    rfl
  · simp only [mail_read, hcfg, hfetch]
    simp only [Option.getD, Json.pyGet, hcontents]
    rfl
  · simp only [mail_read, hcfg, hfetch, if_true]
    rw [callAgentMail_calls env tr uuid2 "POST" "/mcp/call" _ none _ b a t hcfg]
    simp
  · simp only [mail_read, hcfg, hfetch]
    simp

/-- **C8 witness**: a concrete read against a server returning one
message: `mark_read = true` records two logical calls even though the
mark-as-read call answers 404, `mark_read = false` records one, and both
return the reshaped message. -/
theorem C8_witness :
    ∃ v, readReshapeMsg (.obj [("id", .num 123), ("body_md", .str "Hello")]) = .ok v ∧
      (mail_read envOk none
        (fun n => if n = 0 then
          .status 200 (some (.obj [("contents",
            .arr [.obj [("id", .num 123), ("body_md", .str "Hello")]])])) "ok"
          else .status 404 none "gone")
        "u1" "u2" 123 true none none {}).1 = .ok v ∧
      (mail_read envOk none
        (fun n => if n = 0 then
          .status 200 (some (.obj [("contents",
            .arr [.obj [("id", .num 123), ("body_md", .str "Hello")]])])) "ok"
          else .status 404 none "gone")
        "u1" "u2" 123 false none none {}).1 = .ok v ∧
      (mail_read envOk none
        (fun n => if n = 0 then
          .status 200 (some (.obj [("contents",
            .arr [.obj [("id", .num 123), ("body_md", .str "Hello")]])])) "ok"
          else .status 404 none "gone")
        "u1" "u2" 123 true none none {}).2.calls =
        (({} : MailState)).calls ++
          [("GET", "/mcp/resources/resource://message/" ++ toString (123 : Int)),
           ("POST", "/mcp/call")] ∧
      (mail_read envOk none
        (fun n => if n = 0 then
          .status 200 (some (.obj [("contents",
            .arr [.obj [("id", .num 123), ("body_md", .str "Hello")]])])) "ok"
          else .status 404 none "gone")
        "u1" "u2" 123 false none none {}).2.calls =
        (({} : MailState)).calls ++
          [("GET", "/mcp/resources/resource://message/" ++ toString (123 : Int))] :=
  C8_read_secondary_call_suppressed envOk none
    (fun n => if n = 0 then
      .status 200 (some (.obj [("contents",
        .arr [.obj [("id", .num 123), ("body_md", .str "Hello")]])])) "ok"
      else .status 404 none "gone")
    "u1" "u2" 123 none none {} "http://127.0.0.1:8765" "tester" none 200 "ok"
    [("contents", .arr [.obj [("id", .num 123), ("body_md", .str "Hello")]])]
    [("id", .num 123), ("body_md", .str "Hello")] [] rfl rfl (by omega) rfl

/-- **C9**: each `_call_agent_mail` invocation computes its headers once —
so every attempt of the one logical call sends the same request, with the
same `Idempotency-Key` — and that header is present with the freshly
supplied UUID exactly when the method is POST or PUT and the JSON body is
non-empty (truthy). -/
theorem C9_idempotency_key_stable (env : Env) (tr : Nat → HttpOutcome)
    (uuid method endpoint : String) (jsonData params : Option Json) (st : MailState)
    (b a : String) (t : Option String)
    (hcfg : getConfig env = .ok (b, a, t)) :
    (∃ k, 1 ≤ k ∧
      (callAgentMail env tr uuid method endpoint jsonData params st).2.issued =
        st.issued ++ List.replicate k
          ⟨method, urljoin b endpoint, buildHeaders t method jsonData uuid,
           jsonData, params⟩) ∧
    (buildHeaders t method jsonData uuid).lookup "Idempotency-Key" =
      (if (method = "POST" ∨ method = "PUT") ∧ (jsonData.getD .null).truthy = true
       then some uuid else none) := by
  constructor
  · rw [callAgentMail_ok_eq env tr uuid method endpoint jsonData params st b a t hcfg]
    obtain ⟨k, hk1, hk2, hk⟩ := runAttempts_issued tr
      ⟨method, urljoin b endpoint, buildHeaders t method jsonData uuid, jsonData, params⟩
      endpoint b AGENT_MAIL_RETRIES 0
      { st with calls := st.calls ++ [(method, endpoint)] }
    exact ⟨k, hk1, by simpa using hk⟩
  · by_cases hcond : (method = "POST" ∨ method = "PUT") ∧
        (jsonData.getD .null).truthy = true
    · by_cases htok : strTruthy t <;> simp [buildHeaders, hcond, htok, List.lookup]
    · by_cases htok : strTruthy t <;> simp [buildHeaders, hcond, htok, List.lookup]

/-- **C9 witness**: a POST with a non-empty body and an auth token
configured: the one issued-request suffix is a replicate of a single
request value whose headers carry the supplied UUID. -/
theorem C9_witness :
    (∃ k, 1 ≤ k ∧
      (callAgentMail ⟨some "http://127.0.0.1:8765", some "tester", some "tok", none,
          some "u", "/w"⟩ alwaysServerError "uuid-1" "POST" "/mcp/call"
        (some (.obj [("x", .num 1)])) none {}).2.issued =
        (({} : MailState)).issued ++ List.replicate k
          ⟨"POST", urljoin "http://127.0.0.1:8765" "/mcp/call",
           buildHeaders (some "tok") "POST" (some (.obj [("x", .num 1)])) "uuid-1",
           some (.obj [("x", .num 1)]), none⟩) ∧
    (buildHeaders (some "tok") "POST" (some (.obj [("x", .num 1)])) "uuid-1").lookup
        "Idempotency-Key" =
      (if ("POST" = "POST" ∨ "POST" = "PUT") ∧
          ((some (.obj [("x", .num 1)]) : Option Json).getD .null).truthy = true
       then some "uuid-1" else none) :=
  C9_idempotency_key_stable
    ⟨some "http://127.0.0.1:8765", some "tester", some "tok", none, some "u", "/w"⟩
    alwaysServerError "uuid-1" "POST" "/mcp/call" (some (.obj [("x", .num 1)])) none {}
    "http://127.0.0.1:8765" "tester" (some "tok") rfl

/-- **C10**: `mail_delete` resolves configuration before its
error-swallowing `try` region: when `getConfig` fails (base URL unset, or
agent name absent and underivable), the `NOT_CONFIGURED` error is raised
instead of `{"archived": true}` being returned, and the MCP wrapper then
returns an error-valued mapping containing `deleted: false`. -/
theorem C10_delete_config_error_surfaces (env : Env) (ws : Option String)
    (tr : Nat → HttpOutcome) (uuid : String) (mid : Int) (an pk : Option String)
    (st : MailState) (e : MailError)
    (hcfg : getConfig env = .error e) :
    mail_delete env ws tr uuid mid an pk st = (.error (.mail e), st) ∧
    e.code = .NOT_CONFIGURED ∧
    beads_mail_delete env ws tr uuid mid an pk st =
      (.ok (.obj [("error", .str e.code.name), ("deleted", .bool false),
        ("message", e.message)]), st) := by
  have h1 : mail_delete env ws tr uuid mid an pk st = (.error (.mail e), st) := by
    simp only [mail_delete, hcfg]
  exact ⟨h1, getConfig_error_code env e hcfg, by simp only [beads_mail_delete, h1]⟩

/-- **C10 witness**: with the base URL set but the agent name absent and
underivable (the OS user lookup fails), `mail_delete` raises
`NOT_CONFIGURED` and its wrapper returns the error mapping with
`deleted: false`. -/
theorem C10_witness :
    mail_delete ⟨some "http://127.0.0.1:8765", none, none, none, none, "/w"⟩ none
        always404 "u" 9 none none {} = (.error (.mail nameNotConfiguredError), {}) ∧
    nameNotConfiguredError.code = .NOT_CONFIGURED ∧
    beads_mail_delete ⟨some "http://127.0.0.1:8765", none, none, none, none, "/w"⟩ none
        always404 "u" 9 none none {} =
      (.ok (.obj [("error", .str nameNotConfiguredError.code.name),
        ("deleted", .bool false), ("message", nameNotConfiguredError.message)]), {}) :=
  C10_delete_config_error_surfaces
    ⟨some "http://127.0.0.1:8765", none, none, none, none, "/w"⟩ none always404 "u" 9
    none none {} nameNotConfiguredError rfl

end BeadsMail
